import Mathlib

/-!
Shallow embedding of `src/programs/invoice-financing/src/lib.rs`: the
invoice-financing program (create / fund / repay / claim-insurance) with its
risk-pricing engine, translated to executable Lean definitions.  Machine
integers are modelled as `Nat` (u64, u8, u16) and `Int` (i64); token
transfers performed by an operation are returned explicitly as a list.
-/

namespace InvoiceFinancing

/-- 2^64, the number of values of a u64. -/
def U64MAX : Nat := 18446744073709551616

/-- Modelled from the spec: the Cargo build profile (its overflow-checks
setting) is not part of src/, and the spec mandates that overflow on
addition/multiplication of monetary amounts is a fatal arithmetic error,
never silently wrapped.  A u64 arithmetic result is in range when it is
below 2^64; an out-of-range result aborts the operation. -/
def u64InRange (n : Nat) : Prop := n < U64MAX

instance (n : Nat) : Decidable (u64InRange n) :=
  inferInstanceAs (Decidable (n < U64MAX))

/-- A 32-byte public key (`Pubkey`); only its byte representation matters
to the program (the risk engine reads byte 0, identities are compared). -/
structure Pubkey where
  bytes : List Nat
deriving DecidableEq, Repr

/-- `Pubkey::default()`: the all-zero key. -/
def Pubkey.defaultKey : Pubkey := ⟨List.replicate 32 0⟩

/-- `InvoiceStatus` (lib.rs lines 558-564). -/
inductive InvoiceStatus
  | PendingFunding
  | Funded
  | Repaid
  | Defaulted
deriving DecidableEq, Repr

/-- `ErrorCode` (lib.rs lines 629-663). -/
inductive ErrorCode
  | InvalidAmount
  | AmountTooLarge
  | InvalidDueDate
  | DueDateTooFar
  | DebtorInfoTooLong
  | DebtorInfoTooShort
  | InvoiceNotAvailable
  | InvalidFundingAmount
  | InsufficientFunds
  | InvoiceNotFunded
  | InsufficientRepayment
  | InsufficientRepaymentFunds
  | RepaymentPeriodExpired
  | NotEligibleForClaim
  | UnauthorizedInsuranceClaim
  | InsufficientInsurancePool
deriving DecidableEq, Repr

/-- An operation aborts either with a program `ErrorCode` (a `require!`
failure) or with a fatal arithmetic overflow. -/
inductive ProgramError
  | code : ErrorCode → ProgramError
  | arithmeticOverflow
deriving DecidableEq, Repr

/-- `GlobalState` (lib.rs lines 512-520); the `bump` field is storage-layer
bookkeeping and not modelled. -/
structure GlobalState where
  total_invoices : Nat
  total_funded : Nat
  insurance_pool_balance : Nat
  authority : Pubkey
  usdc_mint : Pubkey
deriving DecidableEq, Repr

/-- `Invoice` (lib.rs lines 526-552); the `bump` field is storage-layer
bookkeeping and not modelled. -/
structure Invoice where
  invoice_id : Nat
  business_owner : Pubkey
  investor : Pubkey
  amount : Nat
  funded_amount : Nat
  due_date : Int
  debtor_info : String
  status : InvoiceStatus
  risk_score : Nat
  insurance_premium : Nat
  created_at : Int
  funding_date : Option Int
  repayment_date : Option Int
  expected_return : Option Nat
  final_repayment_amount : Option Nat
  late_fee : Option Nat
  insurance_claim_date : Option Int
  insurance_payout : Option Nat
  industry_risk : Nat
  credit_score : Nat
  payment_terms_days : Nat
deriving DecidableEq, Repr

/-- `RiskAssessment` (lib.rs lines 584-590). -/
structure RiskAssessment where
  risk_score : Nat
  industry_risk : Nat
  estimated_credit_score : Nat
  estimated_yield : Nat
deriving DecidableEq, Repr

/-- The token accounts an operation moves funds between. -/
inductive AcctId
  | investorAcct
  | businessAcct
  | poolAcct
deriving DecidableEq, Repr

/-- One `token::transfer` call performed by an operation. -/
structure Transfer where
  src : AcctId
  dst : AcctId
  amount : Nat
deriving DecidableEq, Repr

/-- Amount-tier risk add-on (lib.rs lines 323-329). -/
def amountRisk (amount : Nat) : Nat :=
  if amount ≤ 10000000 then 5
  else if amount ≤ 50000000 then 10
  else if amount ≤ 100000000 then 15
  else if amount ≤ 500000000 then 25
  else 35

/-- Duration-tier risk add-on (lib.rs lines 332-339); the Rust `match` on
i64 ranges `0..=7`, `8..=14`, ... sends negative values to the default arm. -/
def durationRisk (days_to_due : Int) : Nat :=
  if 0 ≤ days_to_due ∧ days_to_due ≤ 7 then 20
  else if 8 ≤ days_to_due ∧ days_to_due ≤ 14 then 15
  else if 15 ≤ days_to_due ∧ days_to_due ≤ 30 then 10
  else if 31 ≤ days_to_due ∧ days_to_due ≤ 60 then 5
  else if 61 ≤ days_to_due ∧ days_to_due ≤ 90 then 2
  else 0

/-- `((business_hash[0] as u16) * 3 + 600) % 850` (lib.rs line 343). -/
def pseudoCreditScore (business_owner : Pubkey) : Nat :=
  (business_owner.bytes.headD 0 * 3 + 600) % 850

/-- Credit-bracket risk add-on (lib.rs lines 345-351). -/
def creditRisk (pseudo_credit_score : Nat) : Nat :=
  if 800 ≤ pseudo_credit_score ∧ pseudo_credit_score ≤ 850 then 0
  else if 750 ≤ pseudo_credit_score ∧ pseudo_credit_score ≤ 799 then 2
  else if 700 ≤ pseudo_credit_score ∧ pseudo_credit_score ≤ 749 then 5
  else if 650 ≤ pseudo_credit_score ∧ pseudo_credit_score ≤ 699 then 10
  else 15

/-- `calculate_enhanced_risk` (lib.rs lines 311-371).  The u8/u16
intermediate sums cannot exceed 85 and 1365, so plain `Nat` arithmetic is
exact; `Clock::get()` is passed in as `now`; i64 division truncates, which
`Int.tdiv` mirrors. -/
def calculate_enhanced_risk (amount : Nat) (due_date : Int)
    (business_owner : Pubkey) (now : Int) : RiskAssessment :=
  let days_to_due : Int := (due_date - now).tdiv 86400
  let risk_base : Nat := 10
  let risk_amount := risk_base + amountRisk amount
  let risk_duration := risk_amount + durationRisk days_to_due
  let pseudo_credit_score := pseudoCreditScore business_owner
  let risk_credit := risk_duration + creditRisk pseudo_credit_score
  let industry_risk : Nat := 5
  let risk_total := risk_credit + industry_risk
  let risk_score := min risk_total 50
  let base_yield_bps : Nat := 500
  let risk_premium_bps := risk_score * 20
  { risk_score := risk_score
    industry_risk := industry_risk
    estimated_credit_score := pseudo_credit_score
    estimated_yield := base_yield_bps + risk_premium_bps }

/-- `create_invoice` (lib.rs lines 25-87).  The `require!` guards appear in
source order; `Clock::get()` is the parameter `now`; the `as u16` cast of
`payment_terms_days` truncates modulo 2^16. -/
def create_invoice (invoice_id : Nat) (amount : Nat) (due_date : Int)
    (debtor_info : String) (business_owner : Pubkey)
    (global_state : GlobalState) (now : Int) :
    Except ProgramError (Invoice × GlobalState) :=
  if amount > 0 then
    if amount ≤ 10000000000 then
      if due_date > now then
        if due_date ≤ now + 365 * 24 * 3600 then
          if debtor_info.utf8ByteSize ≤ 200 then
            if debtor_info.utf8ByteSize ≥ 10 then
              let risk_assessment := calculate_enhanced_risk amount due_date business_owner now
              if u64InRange (amount * risk_assessment.risk_score) then
                let insurance_premium := amount * risk_assessment.risk_score / 1000
                if u64InRange (global_state.total_invoices + 1) then
                  Except.ok
                    ({ invoice_id := invoice_id
                       business_owner := business_owner
                       investor := Pubkey.defaultKey
                       amount := amount
                       funded_amount := 0
                       due_date := due_date
                       debtor_info := debtor_info
                       status := InvoiceStatus.PendingFunding
                       risk_score := risk_assessment.risk_score
                       insurance_premium := insurance_premium
                       created_at := now
                       funding_date := none
                       repayment_date := none
                       expected_return := none
                       final_repayment_amount := none
                       late_fee := none
                       insurance_claim_date := none
                       insurance_payout := none
                       industry_risk := risk_assessment.industry_risk
                       credit_score := risk_assessment.estimated_credit_score
                       payment_terms_days := ((due_date - now).tdiv 86400).toNat % 65536 },
                     { global_state with
                       total_invoices := global_state.total_invoices + 1 })
                else Except.error ProgramError.arithmeticOverflow
              else Except.error ProgramError.arithmeticOverflow
            else Except.error (ProgramError.code ErrorCode.DebtorInfoTooShort)
          else Except.error (ProgramError.code ErrorCode.DebtorInfoTooLong)
        else Except.error (ProgramError.code ErrorCode.DueDateTooFar)
      else Except.error (ProgramError.code ErrorCode.InvalidDueDate)
    else Except.error (ProgramError.code ErrorCode.AmountTooLarge)
  else Except.error (ProgramError.code ErrorCode.InvalidAmount)

/-- `fund_invoice` (lib.rs lines 90-154): guards in source order, then the
two transfers (principal to the business owner, premium to the pool), then
the invoice and global-state mutations.  `amount + insurance_premium` is
computed inside the balance `require!`, so its overflow aborts before the
balance check. -/
def fund_invoice (invoice : Invoice) (global_state : GlobalState)
    (investor : Pubkey) (investor_token_account_amount : Nat)
    (amount : Nat) (now : Int) :
    Except ProgramError (Invoice × GlobalState × List Transfer) :=
  if invoice.status = InvoiceStatus.PendingFunding then
    if amount = invoice.amount then
      if u64InRange (amount + invoice.insurance_premium) then
        if investor_token_account_amount ≥ amount + invoice.insurance_premium then
          if u64InRange (amount * invoice.risk_score) then
            if u64InRange (amount + amount * invoice.risk_score / 500) then
              if u64InRange (global_state.total_funded + amount) then
                if u64InRange (global_state.insurance_pool_balance + invoice.insurance_premium) then
                  Except.ok
                    ({ invoice with
                       status := InvoiceStatus.Funded
                       funded_amount := amount
                       investor := investor
                       funding_date := some now
                       expected_return := some (amount + amount * invoice.risk_score / 500) },
                     { global_state with
                       total_funded := global_state.total_funded + amount
                       insurance_pool_balance :=
                         global_state.insurance_pool_balance + invoice.insurance_premium },
                     [⟨AcctId.investorAcct, AcctId.businessAcct, amount⟩,
                      ⟨AcctId.investorAcct, AcctId.poolAcct, invoice.insurance_premium⟩])
                else Except.error ProgramError.arithmeticOverflow
              else Except.error ProgramError.arithmeticOverflow
            else Except.error ProgramError.arithmeticOverflow
          else Except.error ProgramError.arithmeticOverflow
        else Except.error (ProgramError.code ErrorCode.InsufficientFunds)
      else Except.error ProgramError.arithmeticOverflow
    else Except.error (ProgramError.code ErrorCode.InvalidFundingAmount)
  else Except.error (ProgramError.code ErrorCode.InvoiceNotAvailable)

/-- `repay_invoice` (lib.rs lines 157-219).  The signer `business_owner` is
any signer: the handler never compares it with `invoice.business_owner`
(the account constraints bind the paying token account to the signer, not
to the invoice's business owner).  `days_overdue as u64` is a cast of a
non-negative i64.  The grace-period `require!` precedes the late-fee
arithmetic. -/
def repay_invoice (invoice : Invoice) (business_owner : Pubkey)
    (business_token_account_amount : Nat) (repayment_amount : Nat)
    (now : Int) : Except ProgramError (Invoice × List Transfer) :=
  if invoice.status = InvoiceStatus.Funded then
    if repayment_amount ≥ invoice.funded_amount then
      let grace_period : Int := 30 * 86400
      if now ≤ invoice.due_date + grace_period then
        if now > invoice.due_date then
          let days_overdue : Nat := ((now - invoice.due_date).tdiv 86400).toNat
          if u64InRange (invoice.funded_amount * days_overdue) then
            if u64InRange (invoice.funded_amount * days_overdue * 5) then
              let late_fee := invoice.funded_amount * days_overdue * 5 / 10000
              if u64InRange (repayment_amount + late_fee) then
                let total_repayment := repayment_amount + late_fee
                if business_token_account_amount ≥ total_repayment then
                  Except.ok
                    ({ invoice with
                       status := InvoiceStatus.Repaid
                       repayment_date := some now
                       final_repayment_amount := some total_repayment
                       late_fee := some late_fee },
                     [⟨AcctId.businessAcct, AcctId.investorAcct, total_repayment⟩])
                else Except.error (ProgramError.code ErrorCode.InsufficientRepaymentFunds)
              else Except.error ProgramError.arithmeticOverflow
            else Except.error ProgramError.arithmeticOverflow
          else Except.error ProgramError.arithmeticOverflow
        else
          if business_token_account_amount ≥ repayment_amount then
            Except.ok
              ({ invoice with
                 status := InvoiceStatus.Repaid
                 repayment_date := some now
                 final_repayment_amount := some repayment_amount
                 late_fee := some 0 },
               [⟨AcctId.businessAcct, AcctId.investorAcct, repayment_amount⟩])
          else Except.error (ProgramError.code ErrorCode.InsufficientRepaymentFunds)
      else Except.error (ProgramError.code ErrorCode.RepaymentPeriodExpired)
    else Except.error (ProgramError.code ErrorCode.InsufficientRepayment)
  else Except.error (ProgramError.code ErrorCode.InvoiceNotFunded)

/-- Risk-tiered coverage percentage (lib.rs lines 240-245); `risk_score` is
a u8, so the Rust `0..=20` arm is `≤ 20` on `Nat`. -/
def coveragePercentage (risk_score : Nat) : Nat :=
  if risk_score ≤ 20 then 90
  else if risk_score ≤ 35 then 80
  else if risk_score ≤ 50 then 70
  else 60

/-- `claim_insurance` (lib.rs lines 222-286): guards in source order; the
pool-sufficiency `require!` reads the pool token account's amount; the
tracked `insurance_pool_balance` is decremented after the transfer, and its
u64 underflow is a fatal arithmetic error that aborts the (atomic)
operation. -/
def claim_insurance (invoice : Invoice) (global_state : GlobalState)
    (investor : Pubkey) (insurance_pool_account_amount : Nat) (now : Int) :
    Except ProgramError (Invoice × GlobalState × List Transfer) :=
  if invoice.status = InvoiceStatus.Funded then
    if investor = invoice.investor then
      let claim_eligible_date := invoice.due_date + 30 * 86400
      if now > claim_eligible_date then
        let coverage_percentage := coveragePercentage invoice.risk_score
        if u64InRange (invoice.funded_amount * coverage_percentage) then
          let insurance_payout := invoice.funded_amount * coverage_percentage / 100
          if insurance_pool_account_amount ≥ insurance_payout then
            if insurance_payout ≤ global_state.insurance_pool_balance then
              Except.ok
                ({ invoice with
                   status := InvoiceStatus.Defaulted
                   insurance_claim_date := some now
                   insurance_payout := some insurance_payout },
                 { global_state with
                   insurance_pool_balance :=
                     global_state.insurance_pool_balance - insurance_payout },
                 [⟨AcctId.poolAcct, AcctId.investorAcct, insurance_payout⟩])
            else Except.error ProgramError.arithmeticOverflow
          else Except.error (ProgramError.code ErrorCode.InsufficientInsurancePool)
        else Except.error ProgramError.arithmeticOverflow
      else Except.error (ProgramError.code ErrorCode.NotEligibleForClaim)
    else Except.error (ProgramError.code ErrorCode.UnauthorizedInsuranceClaim)
  else Except.error (ProgramError.code ErrorCode.InvoiceNotFunded)

/-- Unpack a successful result, with a default for the error case; used to
state properties of concrete successful runs. -/
def okD {α : Type} (dflt : α) (r : Except ProgramError α) : α :=
  match r with
  | Except.ok a => a
  | Except.error _ => dflt

/-- The exact success condition of `repay_invoice`, read off its guards; it
mentions neither the paying signer nor `invoice.business_owner`. -/
def RepayOk (invoice : Invoice) (business_token_account_amount : Nat)
    (repayment_amount : Nat) (now : Int) : Prop :=
  invoice.status = InvoiceStatus.Funded ∧
  repayment_amount ≥ invoice.funded_amount ∧
  now ≤ invoice.due_date + 30 * 86400 ∧
  (if now > invoice.due_date then
    u64InRange (invoice.funded_amount * ((now - invoice.due_date).tdiv 86400).toNat) ∧
    u64InRange (invoice.funded_amount * ((now - invoice.due_date).tdiv 86400).toNat * 5) ∧
    u64InRange (repayment_amount +
      invoice.funded_amount * ((now - invoice.due_date).tdiv 86400).toNat * 5 / 10000) ∧
    business_token_account_amount ≥ repayment_amount +
      invoice.funded_amount * ((now - invoice.due_date).tdiv 86400).toNat * 5 / 10000
  else business_token_account_amount ≥ repayment_amount)

instance (invoice : Invoice) (bal amt : Nat) (now : Int) :
    Decidable (RepayOk invoice bal amt now) := by
  unfold RepayOk
  infer_instance

/-- An all-zero invoice record, used as the `okD` default and as the base of
concrete test fixtures. -/
def invoiceZero : Invoice :=
  { invoice_id := 0
    business_owner := Pubkey.defaultKey
    investor := Pubkey.defaultKey
    amount := 0
    funded_amount := 0
    due_date := 0
    debtor_info := ""
    status := InvoiceStatus.PendingFunding
    risk_score := 0
    insurance_premium := 0
    created_at := 0
    funding_date := none
    repayment_date := none
    expected_return := none
    final_repayment_amount := none
    late_fee := none
    insurance_claim_date := none
    insurance_payout := none
    industry_risk := 0
    credit_score := 0
    payment_terms_days := 0 }

/-- A freshly initialized global state. -/
def gsZero : GlobalState :=
  { total_invoices := 0
    total_funded := 0
    insurance_pool_balance := 0
    authority := Pubkey.defaultKey
    usdc_mint := Pubkey.defaultKey }

/-- A key whose first byte is 84: its pseudo-credit score is (84*3+600) %
850 = 2. -/
def pk84 : Pubkey := ⟨84 :: List.replicate 31 0⟩

/-- Concrete investor key for test fixtures. -/
def pkInvestorW : Pubkey := ⟨1 :: List.replicate 31 0⟩

/-- Concrete business-owner key for test fixtures. -/
def pkBusinessW : Pubkey := ⟨2 :: List.replicate 31 0⟩

/-- A third key, distinct from the fixture business owner and investor. -/
def pkOtherW : Pubkey := ⟨3 :: List.replicate 31 0⟩

/-- A pending fixture invoice: 1,000,000 units, risk 15, premium 15,000. -/
def invPendingW : Invoice :=
  { invoiceZero with
    amount := 1000000
    insurance_premium := 15000
    risk_score := 15
    due_date := 864000
    business_owner := pkBusinessW }

/-- A funded fixture invoice: 1,000,000 units funded, risk 15, due date 0. -/
def invFundedW : Invoice :=
  { invoiceZero with
    status := InvoiceStatus.Funded
    amount := 1000000
    funded_amount := 1000000
    risk_score := 15
    insurance_premium := 15000
    due_date := 0
    business_owner := pkBusinessW
    investor := pkInvestorW }

/-- Default for `okD` at `create_invoice`'s result type. -/
def dfltCreate : Invoice × GlobalState := (invoiceZero, gsZero)

/-- Default for `okD` at `repay_invoice`'s result type. -/
def dfltRepay : Invoice × List Transfer := (invoiceZero, [])

/-- Default for `okD` at `fund_invoice` / `claim_insurance` result type. -/
def dfltFund : Invoice × GlobalState × List Transfer := (invoiceZero, gsZero, [])

/-! ## Helper lemmas -/

theorem amountRisk_ge (amount : Nat) : 5 ≤ amountRisk amount := by
  unfold amountRisk
  split_ifs <;> omega

theorem calculate_enhanced_risk_ge_20 (amount : Nat) (due_date : Int)
    (business_owner : Pubkey) (now : Int) :
    20 ≤ (calculate_enhanced_risk amount due_date business_owner now).risk_score := by
  unfold calculate_enhanced_risk
  simp only
  have h5 := amountRisk_ge amount
  exact Nat.le_min.mpr ⟨by omega, by omega⟩

theorem calculate_enhanced_risk_le_50 (amount : Nat) (due_date : Int)
    (business_owner : Pubkey) (now : Int) :
    (calculate_enhanced_risk amount due_date business_owner now).risk_score ≤ 50 := by
  unfold calculate_enhanced_risk
  simp only
  exact Nat.min_le_right _ _

/-- Successful creation characterized: under the `create_invoice`
preconditions the operation succeeds and returns the invoice priced by
`calculate_enhanced_risk`. -/
theorem create_invoice_ok (invoice_id amount : Nat) (due_date now : Int)
    (debtor_info : String) (business_owner : Pubkey) (gs : GlobalState)
    (h1 : 0 < amount) (h2 : amount ≤ 10000000000)
    (h3 : now < due_date) (h4 : due_date ≤ now + 365 * 24 * 3600)
    (h5 : debtor_info.utf8ByteSize ≤ 200) (h6 : 10 ≤ debtor_info.utf8ByteSize)
    (h7 : u64InRange (gs.total_invoices + 1)) :
    (create_invoice invoice_id amount due_date debtor_info business_owner gs now).isOk = true ∧
    (okD dfltCreate (create_invoice invoice_id amount due_date debtor_info business_owner gs now)).1.risk_score
      = (calculate_enhanced_risk amount due_date business_owner now).risk_score ∧
    (okD dfltCreate (create_invoice invoice_id amount due_date debtor_info business_owner gs now)).1.insurance_premium
      = amount * (calculate_enhanced_risk amount due_date business_owner now).risk_score / 1000 ∧
    (okD dfltCreate (create_invoice invoice_id amount due_date debtor_info business_owner gs now)).1.amount
      = amount := by
  have hrange : u64InRange (amount * (calculate_enhanced_risk amount due_date business_owner now).risk_score) := by
    have hle := calculate_enhanced_risk_le_50 amount due_date business_owner now
    have : amount * (calculate_enhanced_risk amount due_date business_owner now).risk_score
        ≤ 10000000000 * 50 := Nat.mul_le_mul h2 hle
    unfold u64InRange U64MAX
    omega
  simp only [create_invoice, if_pos h1, if_pos h2, if_pos h3, if_pos h4, if_pos h5,
    if_pos h6, if_pos hrange, if_pos h7]
  exact ⟨rfl, rfl, rfl, rfl⟩

/-! ## Claim theorems -/

/-- C4: for every valid creation (all `create_invoice` preconditions
satisfied), the resulting invoice's risk_score satisfies
10 ≤ risk_score ≤ 50 and its insurance_premium equals
floor(amount * risk_score / 1000). -/
theorem create_risk_bounds_and_premium (invoice_id amount : Nat)
    (due_date now : Int) (debtor_info : String) (business_owner : Pubkey)
    (gs : GlobalState)
    (h1 : 0 < amount) (h2 : amount ≤ 10000000000)
    (h3 : now < due_date) (h4 : due_date ≤ now + 365 * 24 * 3600)
    (h5 : debtor_info.utf8ByteSize ≤ 200) (h6 : 10 ≤ debtor_info.utf8ByteSize)
    (h7 : u64InRange (gs.total_invoices + 1)) :
    (create_invoice invoice_id amount due_date debtor_info business_owner gs now).isOk = true ∧
    10 ≤ (okD dfltCreate (create_invoice invoice_id amount due_date debtor_info business_owner gs now)).1.risk_score ∧
    (okD dfltCreate (create_invoice invoice_id amount due_date debtor_info business_owner gs now)).1.risk_score ≤ 50 ∧
    (okD dfltCreate (create_invoice invoice_id amount due_date debtor_info business_owner gs now)).1.insurance_premium
      = amount * (okD dfltCreate (create_invoice invoice_id amount due_date debtor_info business_owner gs now)).1.risk_score / 1000 := by
  obtain ⟨hok, hrs, hprem, -⟩ :=
    create_invoice_ok invoice_id amount due_date now debtor_info business_owner gs
      h1 h2 h3 h4 h5 h6 h7
  refine ⟨hok, ?_, ?_, ?_⟩
  · rw [hrs]
    have := calculate_enhanced_risk_ge_20 amount due_date business_owner now
    omega
  · rw [hrs]
    exact calculate_enhanced_risk_le_50 amount due_date business_owner now
  · rw [hprem, hrs]

/-- Witness for C4 at a concrete valid creation. -/
theorem create_risk_bounds_and_premium_witness :
    (create_invoice 1 5000000 1728000 "Acme Corp Supplies" pk84 gsZero 0).isOk = true ∧
    10 ≤ (okD dfltCreate (create_invoice 1 5000000 1728000 "Acme Corp Supplies" pk84 gsZero 0)).1.risk_score ∧
    (okD dfltCreate (create_invoice 1 5000000 1728000 "Acme Corp Supplies" pk84 gsZero 0)).1.risk_score ≤ 50 ∧
    (okD dfltCreate (create_invoice 1 5000000 1728000 "Acme Corp Supplies" pk84 gsZero 0)).1.insurance_premium
      = 5000000 * (okD dfltCreate (create_invoice 1 5000000 1728000 "Acme Corp Supplies" pk84 gsZero 0)).1.risk_score / 1000 :=
  create_risk_bounds_and_premium 1 5000000 1728000 0 "Acme Corp Supplies" pk84 gsZero
    (by decide) (by decide) (by decide) (by decide) (by decide) (by decide) (by decide)

/-- C10: for every valid creation, risk_score is at least 20 (so lies in
[20,50]), insurance_premium is at least floor(amount*20/1000), and the
60%-coverage branch of `claim_insurance` is unreachable for invoices
created by `create_invoice`. -/
theorem create_risk_floor_and_coverage (invoice_id amount : Nat)
    (due_date now : Int) (debtor_info : String) (business_owner : Pubkey)
    (gs : GlobalState)
    (h1 : 0 < amount) (h2 : amount ≤ 10000000000)
    (h3 : now < due_date) (h4 : due_date ≤ now + 365 * 24 * 3600)
    (h5 : debtor_info.utf8ByteSize ≤ 200) (h6 : 10 ≤ debtor_info.utf8ByteSize)
    (h7 : u64InRange (gs.total_invoices + 1)) :
    20 ≤ (okD dfltCreate (create_invoice invoice_id amount due_date debtor_info business_owner gs now)).1.risk_score ∧
    (okD dfltCreate (create_invoice invoice_id amount due_date debtor_info business_owner gs now)).1.risk_score ≤ 50 ∧
    amount * 20 / 1000 ≤ (okD dfltCreate (create_invoice invoice_id amount due_date debtor_info business_owner gs now)).1.insurance_premium ∧
    coveragePercentage (okD dfltCreate (create_invoice invoice_id amount due_date debtor_info business_owner gs now)).1.risk_score ≠ 60 := by
  obtain ⟨-, hrs, hprem, -⟩ :=
    create_invoice_ok invoice_id amount due_date now debtor_info business_owner gs
      h1 h2 h3 h4 h5 h6 h7
  have hge := calculate_enhanced_risk_ge_20 amount due_date business_owner now
  have hle := calculate_enhanced_risk_le_50 amount due_date business_owner now
  refine ⟨by omega, by omega, ?_, ?_⟩
  · rw [hprem]
    exact Nat.div_le_div_right (Nat.mul_le_mul_left amount (by omega))
  · rw [hrs]
    unfold coveragePercentage
    split_ifs <;> omega

/-- Witness for C10 at a concrete valid creation. -/
theorem create_risk_floor_and_coverage_witness :
    20 ≤ (okD dfltCreate (create_invoice 1 5000000 1728000 "Acme Corp Supplies" pk84 gsZero 0)).1.risk_score ∧
    (okD dfltCreate (create_invoice 1 5000000 1728000 "Acme Corp Supplies" pk84 gsZero 0)).1.risk_score ≤ 50 ∧
    5000000 * 20 / 1000 ≤ (okD dfltCreate (create_invoice 1 5000000 1728000 "Acme Corp Supplies" pk84 gsZero 0)).1.insurance_premium ∧
    coveragePercentage (okD dfltCreate (create_invoice 1 5000000 1728000 "Acme Corp Supplies" pk84 gsZero 0)).1.risk_score ≠ 60 :=
  create_risk_floor_and_coverage 1 5000000 1728000 0 "Acme Corp Supplies" pk84 gsZero
    (by decide) (by decide) (by decide) (by decide) (by decide) (by decide) (by decide)

/-- C3 counterexample: for the originator key whose first byte is 84, the
pseudo-credit score computed at creation is (84*3+600) % 850 = 2, which
does not lie in [600,850). -/
theorem pseudo_credit_counterexample :
    (calculate_enhanced_risk 5000000 1728000 pk84 0).estimated_credit_score = 2 ∧
    (okD dfltCreate (create_invoice 1 5000000 1728000 "Acme Corp Supplies" pk84 gsZero 0)).1.credit_score = 2 ∧
    ¬ 600 ≤ (calculate_enhanced_risk 5000000 1728000 pk84 0).estimated_credit_score := by
  decide

/-- C3 (amended): the pseudo-credit score computed at creation equals
(first_byte*3 + 600) mod 850 and always lies in [0, 850) (not [600,850):
first bytes ≥ 84 wrap below 600). -/
theorem pseudo_credit_formula (amount : Nat) (due_date now : Int)
    (business_owner : Pubkey) :
    (calculate_enhanced_risk amount due_date business_owner now).estimated_credit_score
      = (business_owner.bytes.headD 0 * 3 + 600) % 850 ∧
    (calculate_enhanced_risk amount due_date business_owner now).estimated_credit_score < 850 ∧
    ∀ (invoice_id : Nat) (debtor_info : String) (gs : GlobalState)
      (p : Invoice × GlobalState),
      create_invoice invoice_id amount due_date debtor_info business_owner gs now
        = Except.ok p →
      p.1.credit_score = (business_owner.bytes.headD 0 * 3 + 600) % 850 := by
  refine ⟨rfl, Nat.mod_lt _ (by omega), ?_⟩
  intro invoice_id debtor_info gs p h
  simp only [create_invoice] at h
  split_ifs at h
  cases h
  rfl

/-- Witness for the amended C3 at a concrete creation. -/
theorem pseudo_credit_formula_witness :
    (calculate_enhanced_risk 5000000 1728000 pk84 0).estimated_credit_score
      = (pk84.bytes.headD 0 * 3 + 600) % 850 ∧
    (okD dfltCreate (create_invoice 1 5000000 1728000 "Acme Corp Supplies" pk84 gsZero 0)).1.credit_score
      = (pk84.bytes.headD 0 * 3 + 600) % 850 :=
  ⟨(pseudo_credit_formula 5000000 1728000 0 pk84).1,
   (pseudo_credit_formula 5000000 1728000 0 pk84).2.2 1 "Acme Corp Supplies" gsZero
     (okD dfltCreate (create_invoice 1 5000000 1728000 "Acme Corp Supplies" pk84 gsZero 0))
     rfl⟩

/-- C6: for every successful claim_insurance the payout equals
floor(funded_amount * coverage_pct / 100), the single pool-to-investor
transfer moves exactly that amount, and coverage_pct is tiered by
risk_score: [0,20] → 90, [21,35] → 80, [36,50] → 70, else 60. -/
theorem insurance_payout_formula :
    (∀ (inv : Invoice) (gs : GlobalState) (c : Pubkey) (pta : Nat) (now : Int)
       (p : Invoice × GlobalState × List Transfer),
       claim_insurance inv gs c pta now = Except.ok p →
       p.1.insurance_payout
           = some (inv.funded_amount * coveragePercentage inv.risk_score / 100) ∧
       p.2.2 = [⟨AcctId.poolAcct, AcctId.investorAcct,
                 inv.funded_amount * coveragePercentage inv.risk_score / 100⟩]) ∧
    (∀ r : Nat,
       (r ≤ 20 → coveragePercentage r = 90) ∧
       (21 ≤ r → r ≤ 35 → coveragePercentage r = 80) ∧
       (36 ≤ r → r ≤ 50 → coveragePercentage r = 70) ∧
       (51 ≤ r → coveragePercentage r = 60)) := by
  constructor
  · intro inv gs c pta now p h
    simp only [claim_insurance] at h
    split_ifs at h
    cases h
    exact ⟨rfl, rfl⟩
  · intro r
    refine ⟨?_, ?_, ?_, ?_⟩ <;>
      · intros
        unfold coveragePercentage
        split_ifs <;> omega

/-- Witness for C6: a claim on a funded invoice with risk_score 15 and
funded_amount 1,000,000 pays out exactly 900,000 (90% coverage). -/
theorem insurance_payout_formula_witness :
    (okD dfltFund (claim_insurance invFundedW
        { gsZero with insurance_pool_balance := 900000 }
        pkInvestorW 900000 2592001)).1.insurance_payout = some 900000 ∧
    coveragePercentage 15 = 90 :=
  ⟨((insurance_payout_formula.1 invFundedW
      { gsZero with insurance_pool_balance := 900000 } pkInvestorW 900000 2592001
      (okD dfltFund (claim_insurance invFundedW
        { gsZero with insurance_pool_balance := 900000 }
        pkInvestorW 900000 2592001)) rfl).1).trans (by decide),
   (insurance_payout_formula.2 15).1 (by decide)⟩

/-- C1: a successful fund_invoice increases the tracked insurance pool
balance by exactly the invoice's insurance_premium; a successful
claim_insurance decreases it by exactly the computed payout, which never
exceeds the pre-claim balance; and when the pool token account mirrors the
tracked balance, a claim whose payout exceeds that balance is rejected. -/
theorem pool_balance_conservation :
    (∀ (inv : Invoice) (gs : GlobalState) (ivk : Pubkey) (ita amt : Nat) (now : Int)
       (p : Invoice × GlobalState × List Transfer),
       fund_invoice inv gs ivk ita amt now = Except.ok p →
       p.2.1.insurance_pool_balance
         = gs.insurance_pool_balance + inv.insurance_premium) ∧
    (∀ (inv : Invoice) (gs : GlobalState) (c : Pubkey) (pta : Nat) (now : Int)
       (p : Invoice × GlobalState × List Transfer),
       claim_insurance inv gs c pta now = Except.ok p →
       p.2.1.insurance_pool_balance
           + inv.funded_amount * coveragePercentage inv.risk_score / 100
         = gs.insurance_pool_balance ∧
       inv.funded_amount * coveragePercentage inv.risk_score / 100
         ≤ gs.insurance_pool_balance) ∧
    (∀ (inv : Invoice) (gs : GlobalState) (c : Pubkey) (now : Int),
       gs.insurance_pool_balance
           < inv.funded_amount * coveragePercentage inv.risk_score / 100 →
       (claim_insurance inv gs c gs.insurance_pool_balance now).isOk = false) := by
  refine ⟨?_, ?_, ?_⟩
  · intro inv gs ivk ita amt now p h
    simp only [fund_invoice] at h
    split_ifs at h
    cases h
    rfl
  · intro inv gs c pta now p h
    simp only [claim_insurance] at h
    split_ifs at h with h1 h2 h3 h4 h5 h6
    cases h
    refine ⟨?_, h6⟩
    simp only
    omega
  · intro inv gs c now hlt
    simp only [claim_insurance]
    split_ifs with h1 h2 h3 h4 h5 h6
    · exact absurd h5 (by omega)
    all_goals rfl

/-- Witness for C1: concrete fund and claim runs, and the rejection of an
underfunded claim. -/
theorem pool_balance_conservation_witness :
    (okD dfltFund (fund_invoice invPendingW gsZero pkInvestorW 1015000 1000000 0)).2.1.insurance_pool_balance
      = gsZero.insurance_pool_balance + invPendingW.insurance_premium ∧
    (okD dfltFund (claim_insurance invFundedW
        { gsZero with insurance_pool_balance := 900000 }
        pkInvestorW 900000 2592001)).2.1.insurance_pool_balance
        + invFundedW.funded_amount * coveragePercentage invFundedW.risk_score / 100
      = 900000 ∧
    (claim_insurance invFundedW gsZero pkInvestorW
        gsZero.insurance_pool_balance 2592001).isOk = false :=
  ⟨pool_balance_conservation.1 invPendingW gsZero pkInvestorW 1015000 1000000 0
     (okD dfltFund (fund_invoice invPendingW gsZero pkInvestorW 1015000 1000000 0)) rfl,
   (pool_balance_conservation.2.1 invFundedW
     { gsZero with insurance_pool_balance := 900000 } pkInvestorW 900000 2592001
     (okD dfltFund (claim_insurance invFundedW
       { gsZero with insurance_pool_balance := 900000 } pkInvestorW 900000 2592001)) rfl).1,
   pool_balance_conservation.2.2 invFundedW gsZero pkInvestorW 2592001 (by decide)⟩

set_option maxHeartbeats 1600000 in
/-- C2: the only transitions are PendingFunding→Funded (fund_invoice),
Funded→Repaid (repay_invoice) and Funded→Defaulted (claim_insurance);
create_invoice produces PendingFunding; Repaid and Defaulted are terminal
(every operation on them fails); a second fund_invoice on an
already-funded invoice fails with the state-conflict error
InvoiceNotAvailable; and each successful fund increases total_funded by
amount. -/
theorem invoice_state_machine :
    (∀ (inv : Invoice) (gs : GlobalState) (ivk : Pubkey) (ita amt : Nat) (now : Int)
       (p : Invoice × GlobalState × List Transfer),
       fund_invoice inv gs ivk ita amt now = Except.ok p →
       inv.status = InvoiceStatus.PendingFunding ∧
       p.1.status = InvoiceStatus.Funded ∧
       p.2.1.total_funded = gs.total_funded + amt) ∧
    (∀ (inv : Invoice) (s : Pubkey) (bal amt : Nat) (now : Int)
       (p : Invoice × List Transfer),
       repay_invoice inv s bal amt now = Except.ok p →
       inv.status = InvoiceStatus.Funded ∧ p.1.status = InvoiceStatus.Repaid) ∧
    (∀ (inv : Invoice) (gs : GlobalState) (c : Pubkey) (pta : Nat) (now : Int)
       (p : Invoice × GlobalState × List Transfer),
       claim_insurance inv gs c pta now = Except.ok p →
       inv.status = InvoiceStatus.Funded ∧ p.1.status = InvoiceStatus.Defaulted) ∧
    (∀ (invoice_id amount : Nat) (due_date now : Int) (info : String)
       (bo : Pubkey) (gs : GlobalState) (p : Invoice × GlobalState),
       create_invoice invoice_id amount due_date info bo gs now = Except.ok p →
       p.1.status = InvoiceStatus.PendingFunding) ∧
    (∀ (inv : Invoice) (gs : GlobalState) (ivk : Pubkey) (ita amt : Nat) (now : Int),
       inv.status = InvoiceStatus.Funded →
       fund_invoice inv gs ivk ita amt now
         = Except.error (ProgramError.code ErrorCode.InvoiceNotAvailable)) ∧
    (∀ (inv : Invoice) (gs : GlobalState) (k : Pubkey) (b a : Nat) (now : Int),
       inv.status = InvoiceStatus.Repaid ∨ inv.status = InvoiceStatus.Defaulted →
       fund_invoice inv gs k b a now
           = Except.error (ProgramError.code ErrorCode.InvoiceNotAvailable) ∧
       repay_invoice inv k b a now
           = Except.error (ProgramError.code ErrorCode.InvoiceNotFunded) ∧
       claim_insurance inv gs k b now
           = Except.error (ProgramError.code ErrorCode.InvoiceNotFunded)) := by
  refine ⟨?_, ?_, ?_, ?_, ?_, ?_⟩
  · intro inv gs ivk ita amt now p h
    simp only [fund_invoice] at h
    split_ifs at h with h1
    cases h
    exact ⟨h1, rfl, rfl⟩
  · intro inv s bal amt now p h
    simp only [repay_invoice] at h
    split_ifs at h with h1 <;> (cases h; exact ⟨h1, rfl⟩)
  · intro inv gs c pta now p h
    simp only [claim_insurance] at h
    split_ifs at h with h1
    cases h
    exact ⟨h1, rfl⟩
  · intro invoice_id amount due_date now info bo gs p h
    simp only [create_invoice] at h
    split_ifs at h
    cases h
    rfl
  · intro inv gs ivk ita amt now h
    simp [fund_invoice, h]
  · intro inv gs k b a now h
    rcases h with h | h <;>
      exact ⟨by simp [fund_invoice, h], by simp [repay_invoice, h],
             by simp [claim_insurance, h]⟩

/-- Witness for C2: a concrete fund succeeds once (raising total_funded by
the amount), and funding the resulting invoice again fails with the
state-conflict error. -/
theorem invoice_state_machine_witness :
    (okD dfltFund (fund_invoice invPendingW gsZero pkInvestorW 1015000 1000000 0)).1.status
      = InvoiceStatus.Funded ∧
    (okD dfltFund (fund_invoice invPendingW gsZero pkInvestorW 1015000 1000000 0)).2.1.total_funded
      = gsZero.total_funded + 1000000 ∧
    fund_invoice (okD dfltFund (fund_invoice invPendingW gsZero pkInvestorW 1015000 1000000 0)).1
        (okD dfltFund (fund_invoice invPendingW gsZero pkInvestorW 1015000 1000000 0)).2.1
        pkOtherW 2000000 1000000 5
      = Except.error (ProgramError.code ErrorCode.InvoiceNotAvailable) :=
  ⟨(invoice_state_machine.1 invPendingW gsZero pkInvestorW 1015000 1000000 0
      (okD dfltFund (fund_invoice invPendingW gsZero pkInvestorW 1015000 1000000 0)) rfl).2.1,
   (invoice_state_machine.1 invPendingW gsZero pkInvestorW 1015000 1000000 0
      (okD dfltFund (fund_invoice invPendingW gsZero pkInvestorW 1015000 1000000 0)) rfl).2.2,
   invoice_state_machine.2.2.2.2.1
     (okD dfltFund (fund_invoice invPendingW gsZero pkInvestorW 1015000 1000000 0)).1
     (okD dfltFund (fund_invoice invPendingW gsZero pkInvestorW 1015000 1000000 0)).2.1
     pkOtherW 2000000 1000000 5 (by decide)⟩

/-- C5: for every successful repay_invoice, if now ≤ due_date then
late_fee = 0 and the single transfer moves exactly repayment_amount; if
now > due_date then days_overdue = floor((now-due_date)/86400),
late_fee = floor(funded_amount * days_overdue * 5 / 10000), and the
transfer moves repayment_amount + late_fee. -/
theorem repay_late_fee_arithmetic :
    (∀ (inv : Invoice) (s : Pubkey) (bal amt : Nat) (now : Int)
       (p : Invoice × List Transfer),
       repay_invoice inv s bal amt now = Except.ok p →
       now ≤ inv.due_date →
       p.1.late_fee = some 0 ∧
       p.1.final_repayment_amount = some amt ∧
       p.2 = [⟨AcctId.businessAcct, AcctId.investorAcct, amt⟩]) ∧
    (∀ (inv : Invoice) (s : Pubkey) (bal amt : Nat) (now : Int)
       (p : Invoice × List Transfer),
       repay_invoice inv s bal amt now = Except.ok p →
       inv.due_date < now →
       p.1.late_fee = some (inv.funded_amount
           * ((now - inv.due_date).tdiv 86400).toNat * 5 / 10000) ∧
       p.1.final_repayment_amount = some (amt + inv.funded_amount
           * ((now - inv.due_date).tdiv 86400).toNat * 5 / 10000) ∧
       p.2 = [⟨AcctId.businessAcct, AcctId.investorAcct,
               amt + inv.funded_amount
                 * ((now - inv.due_date).tdiv 86400).toNat * 5 / 10000⟩]) := by
  constructor
  · intro inv s bal amt now p h hnow
    simp only [repay_invoice] at h
    split_ifs at h with h1 h2 h3 h4 <;>
      first
      | (exact absurd h4 (by omega))
      | (cases h; exact ⟨rfl, rfl, rfl⟩)
  · intro inv s bal amt now p h hnow
    simp only [repay_invoice] at h
    split_ifs at h with h1 h2 h3 h4 <;>
      first
      | (cases h; exact ⟨rfl, rfl, rfl⟩)
      | (exact absurd h4 (by omega))

/-- Witness for C5: repaying 10 days late on a 1,000,000-unit funded
invoice gives days_overdue = 10 and late_fee = 5000, and the transfer is
repayment_amount + 5000. -/
theorem repay_late_fee_arithmetic_witness :
    ((864000 - invFundedW.due_date).tdiv 86400).toNat = 10 ∧
    (okD dfltRepay (repay_invoice invFundedW pkBusinessW 1005000 1000000 864000)).1.late_fee
      = some 5000 ∧
    (okD dfltRepay (repay_invoice invFundedW pkBusinessW 1005000 1000000 864000)).1.final_repayment_amount
      = some 1005000 :=
  ⟨by decide,
   ((repay_late_fee_arithmetic.2 invFundedW pkBusinessW 1005000 1000000 864000
      (okD dfltRepay (repay_invoice invFundedW pkBusinessW 1005000 1000000 864000))
      rfl (by decide)).1).trans (by decide),
   ((repay_late_fee_arithmetic.2 invFundedW pkBusinessW 1005000 1000000 864000
      (okD dfltRepay (repay_invoice invFundedW pkBusinessW 1005000 1000000 864000))
      rfl (by decide)).2.1).trans (by decide)⟩

set_option maxHeartbeats 1600000 in
/-- C7: with the state and amount preconditions met, repay_invoice is
rejected with the temporal-window error exactly when now > due_date + 30
days, claim_insurance (by the right claimant) is rejected with the
claim-window error exactly when now ≤ due_date + 30 days; at now equal to
exactly due_date + 30 days, repayment is still accepted (given funds) and
a claim is rejected. -/
theorem repayment_claim_window :
    (∀ (inv : Invoice) (s : Pubkey) (bal amt : Nat) (now : Int),
       inv.status = InvoiceStatus.Funded →
       amt ≥ inv.funded_amount →
       (repay_invoice inv s bal amt now
           = Except.error (ProgramError.code ErrorCode.RepaymentPeriodExpired) ↔
        inv.due_date + 30 * 86400 < now)) ∧
    (∀ (inv : Invoice) (gs : GlobalState) (c : Pubkey) (pta : Nat) (now : Int),
       inv.status = InvoiceStatus.Funded →
       c = inv.investor →
       (claim_insurance inv gs c pta now
           = Except.error (ProgramError.code ErrorCode.NotEligibleForClaim) ↔
        now ≤ inv.due_date + 30 * 86400)) ∧
    (∀ (inv : Invoice) (s : Pubkey) (bal amt : Nat),
       inv.status = InvoiceStatus.Funded →
       amt ≥ inv.funded_amount →
       u64InRange (inv.funded_amount * 30) →
       u64InRange (inv.funded_amount * 30 * 5) →
       u64InRange (amt + inv.funded_amount * 30 * 5 / 10000) →
       bal ≥ amt + inv.funded_amount * 30 * 5 / 10000 →
       (repay_invoice inv s bal amt (inv.due_date + 30 * 86400)).isOk = true) := by
  refine ⟨?_, ?_, ?_⟩
  · intro inv s bal amt now hst hamt
    constructor
    · intro heq
      by_contra hnow
      simp only [repay_invoice, if_pos hst, if_pos hamt] at heq
      rw [if_pos (by omega : now ≤ inv.due_date + 30 * 86400)] at heq
      split_ifs at heq <;> simp_all
    · intro hnow
      simp only [repay_invoice, if_pos hst, if_pos hamt]
      rw [if_neg (by omega : ¬ now ≤ inv.due_date + 30 * 86400)]
  · intro inv gs c pta now hst hc
    constructor
    · intro heq
      by_contra hnow
      simp only [claim_insurance, if_pos hst, if_pos hc] at heq
      rw [if_pos (by omega : inv.due_date + 30 * 86400 < now)] at heq
      split_ifs at heq <;> simp_all
    · intro hnow
      simp only [claim_insurance, if_pos hst, if_pos hc]
      rw [if_neg (by omega : ¬ inv.due_date + 30 * 86400 < now)]
  · intro inv s bal amt hst hamt hr1 hr2 hr3 hbal
    simp only [repay_invoice, if_pos hst, if_pos hamt]
    rw [if_pos (by omega : inv.due_date + 30 * 86400 ≤ inv.due_date + 30 * 86400),
        if_pos (by omega : inv.due_date + 30 * 86400 > inv.due_date)]
    have hd : inv.due_date + 30 * 86400 - inv.due_date = (2592000 : Int) := by ring
    rw [hd]
    have ht : ((2592000 : Int).tdiv 86400).toNat = 30 := by decide
    rw [ht, if_pos hr1, if_pos hr2, if_pos hr3, if_pos hbal]
    rfl

/-- Witness for C7: the fixture funded invoice (due date 0) can still be
repaid at exactly 30 days past due, is time-rejected one second later, and
a claim at exactly 30 days is rejected. -/
theorem repayment_claim_window_witness :
    repay_invoice invFundedW pkBusinessW 1015000 1000000 2592001
      = Except.error (ProgramError.code ErrorCode.RepaymentPeriodExpired) ∧
    (repay_invoice invFundedW pkBusinessW 1015000 1000000
        (invFundedW.due_date + 30 * 86400)).isOk = true ∧
    claim_insurance invFundedW gsZero pkInvestorW 0 (invFundedW.due_date + 30 * 86400)
      = Except.error (ProgramError.code ErrorCode.NotEligibleForClaim) :=
  ⟨(repayment_claim_window.1 invFundedW pkBusinessW 1015000 1000000 2592001
      (by decide) (by decide)).mpr (by decide),
   repayment_claim_window.2.2 invFundedW pkBusinessW 1015000 1000000
     (by decide) (by decide) (by decide) (by decide) (by decide) (by decide),
   (repayment_claim_window.2.1 invFundedW gsZero pkInvestorW 0
      (invFundedW.due_date + 30 * 86400) (by decide) (by decide)).mpr (by decide)⟩

set_option maxHeartbeats 1600000 in
/-- C8: overflow in the monetary u64 additions and multiplications
(amount + insurance_premium, total_funded + amount,
funded_amount * days_overdue * 5, repayment_amount + late_fee) aborts the
operation with a fatal arithmetic error, and successful runs carry the
exact (unwrapped) sums. -/
theorem arithmetic_overflow_aborts :
    (∀ (inv : Invoice) (gs : GlobalState) (ivk : Pubkey) (ita amt : Nat) (now : Int),
       inv.status = InvoiceStatus.PendingFunding →
       amt = inv.amount →
       ¬ u64InRange (amt + inv.insurance_premium) →
       fund_invoice inv gs ivk ita amt now
         = Except.error ProgramError.arithmeticOverflow) ∧
    (∀ (inv : Invoice) (gs : GlobalState) (ivk : Pubkey) (ita amt : Nat) (now : Int),
       inv.status = InvoiceStatus.PendingFunding →
       amt = inv.amount →
       u64InRange (amt + inv.insurance_premium) →
       ita ≥ amt + inv.insurance_premium →
       ¬ u64InRange (gs.total_funded + amt) →
       fund_invoice inv gs ivk ita amt now
         = Except.error ProgramError.arithmeticOverflow) ∧
    (∀ (inv : Invoice) (s : Pubkey) (bal amt : Nat) (now : Int),
       inv.status = InvoiceStatus.Funded →
       amt ≥ inv.funded_amount →
       now ≤ inv.due_date + 30 * 86400 →
       now > inv.due_date →
       ¬ u64InRange (inv.funded_amount * ((now - inv.due_date).tdiv 86400).toNat * 5) →
       repay_invoice inv s bal amt now
         = Except.error ProgramError.arithmeticOverflow) ∧
    (∀ (inv : Invoice) (s : Pubkey) (bal amt : Nat) (now : Int),
       inv.status = InvoiceStatus.Funded →
       amt ≥ inv.funded_amount →
       now ≤ inv.due_date + 30 * 86400 →
       now > inv.due_date →
       u64InRange (inv.funded_amount * ((now - inv.due_date).tdiv 86400).toNat) →
       u64InRange (inv.funded_amount * ((now - inv.due_date).tdiv 86400).toNat * 5) →
       ¬ u64InRange (amt + inv.funded_amount * ((now - inv.due_date).tdiv 86400).toNat * 5 / 10000) →
       repay_invoice inv s bal amt now
         = Except.error ProgramError.arithmeticOverflow) ∧
    (∀ (inv : Invoice) (gs : GlobalState) (ivk : Pubkey) (ita amt : Nat) (now : Int)
       (p : Invoice × GlobalState × List Transfer),
       fund_invoice inv gs ivk ita amt now = Except.ok p →
       u64InRange (gs.total_funded + amt) ∧
       p.2.1.total_funded = gs.total_funded + amt ∧
       u64InRange (gs.insurance_pool_balance + inv.insurance_premium) ∧
       p.2.1.insurance_pool_balance = gs.insurance_pool_balance + inv.insurance_premium) := by
  refine ⟨?_, ?_, ?_, ?_, ?_⟩
  · intro inv gs ivk ita amt now hst hamt hov
    simp only [fund_invoice, if_pos hst, if_pos hamt, if_neg hov]
  · intro inv gs ivk ita amt now hst hamt hpr hita hov
    simp only [fund_invoice, if_pos hst, if_pos hamt, if_pos hpr, if_pos hita]
    split_ifs with g1 g2 g3 <;> first | rfl | exact absurd g3 hov
  · intro inv s bal amt now hst hamt htime hlate hov
    simp only [repay_invoice, if_pos hst, if_pos hamt, if_pos htime, if_pos hlate]
    split_ifs with g1 g2 <;> first | rfl | exact absurd g2 hov
  · intro inv s bal amt now hst hamt htime hlate g1 g2 hov
    simp only [repay_invoice, if_pos hst, if_pos hamt, if_pos htime, if_pos hlate,
      if_pos g1, if_pos g2, if_neg hov]
  · intro inv gs ivk ita amt now p h
    simp only [fund_invoice] at h
    split_ifs at h with h1 h2 h3 h4 h5 h6 h7 h8
    cases h
    exact ⟨h7, rfl, h8, rfl⟩

/-- Witness for C8: funding an invoice whose premium makes
amount + insurance_premium overflow u64 aborts with the arithmetic error,
and a successful concrete fund carries the exact sums. -/
theorem arithmetic_overflow_aborts_witness :
    fund_invoice { invPendingW with insurance_premium := 18446744073709551615 }
        gsZero pkInvestorW 1015000 1000000 0
      = Except.error ProgramError.arithmeticOverflow ∧
    (okD dfltFund (fund_invoice invPendingW gsZero pkInvestorW 1015000 1000000 0)).2.1.total_funded
      = gsZero.total_funded + 1000000 :=
  ⟨arithmetic_overflow_aborts.1 { invPendingW with insurance_premium := 18446744073709551615 }
      gsZero pkInvestorW 1015000 1000000 0 (by decide) (by decide) (by decide),
   (arithmetic_overflow_aborts.2.2.2.2 invPendingW gsZero pkInvestorW 1015000 1000000 0
      (okD dfltFund (fund_invoice invPendingW gsZero pkInvestorW 1015000 1000000 0))
      rfl).2.1⟩

set_option maxHeartbeats 1600000 in
/-- C9: repay_invoice imposes no identity precondition tying the paying
signer to the invoice: its result is independent of the signer and of
invoice.business_owner (its exact success condition, RepayOk, mentions
neither), so any signer with sufficient balance can repay a Funded invoice
within the grace period — unlike claim_insurance, which rejects any
claimant other than invoice.investor. -/
theorem repay_no_identity_precondition :
    (∀ (inv : Invoice) (s₁ s₂ : Pubkey) (bal amt : Nat) (now : Int),
       repay_invoice inv s₁ bal amt now = repay_invoice inv s₂ bal amt now) ∧
    (∀ (inv : Invoice) (s : Pubkey) (bal amt : Nat) (now : Int),
       (repay_invoice inv s bal amt now).isOk = true ↔ RepayOk inv bal amt now) ∧
    (∀ (inv : Invoice) (pk : Pubkey) (bal amt : Nat) (now : Int),
       RepayOk { inv with business_owner := pk } bal amt now ↔ RepayOk inv bal amt now) ∧
    (∀ (inv : Invoice) (gs : GlobalState) (c : Pubkey) (pta : Nat) (now : Int),
       inv.status = InvoiceStatus.Funded →
       ¬ c = inv.investor →
       claim_insurance inv gs c pta now
         = Except.error (ProgramError.code ErrorCode.UnauthorizedInsuranceClaim)) := by
  refine ⟨fun _ _ _ _ _ _ => rfl, ?_, fun _ _ _ _ _ => Iff.rfl, ?_⟩
  · intro inv s bal amt now
    constructor
    · intro h
      unfold RepayOk
      simp only [repay_invoice] at h
      split_ifs at h with h1 h2 h3 h4 h5 h6 h7 h8 h9 <;>
        first
        | (refine ⟨h1, h2, h3, ?_⟩
           rw [if_pos h4]
           exact ⟨h5, h6, h7, h8⟩)
        | (refine ⟨h1, h2, h3, ?_⟩
           rw [if_neg h4]
           exact h9)
        | simp [Except.toBool] at h
    · intro hok
      obtain ⟨hst, hamt, htime, hrest⟩ := hok
      simp only [repay_invoice, if_pos hst, if_pos hamt, if_pos htime]
      by_cases hlate : now > inv.due_date
      · rw [if_pos hlate] at hrest
        obtain ⟨g1, g2, g3, g4⟩ := hrest
        rw [if_pos hlate, if_pos g1, if_pos g2, if_pos g3, if_pos g4]
        rfl
      · rw [if_neg hlate] at hrest
        rw [if_neg hlate, if_pos hrest]
        rfl
  · intro inv gs c pta now hst hc
    simp only [claim_insurance, if_pos hst, if_neg hc]

/-- Witness for C9: a signer different from the invoice's business owner
successfully repays the fixture funded invoice, while a claimant different
from the investor is rejected. -/
theorem repay_no_identity_precondition_witness :
    ¬ pkOtherW = invFundedW.business_owner ∧
    (repay_invoice invFundedW pkOtherW 1005000 1000000 864000).isOk = true ∧
    claim_insurance invFundedW gsZero pkOtherW 900000 2592001
      = Except.error (ProgramError.code ErrorCode.UnauthorizedInsuranceClaim) :=
  ⟨by decide,
   (repay_no_identity_precondition.2.1 invFundedW pkOtherW 1005000 1000000 864000).mpr
     (by decide),
   repay_no_identity_precondition.2.2.2 invFundedW gsZero pkOtherW 900000 2592001
     (by decide) (by decide)⟩

end InvoiceFinancing
